import Mathlib

/-!
# Verification of the bakery/coffee market-intelligence app (`src/app.py`)

Shallow embedding of the pure logic of `app.py`:

* the headline Extractor pipeline inside `fetch_trends` (length window,
  boilerplate denylist, first-occurrence deduplication, search filtering
  with broadened fallback, cap at `MAX_HEADLINES`);
* the quota gate `check_ai_allowance` (daily cap, cooldown with a
  truncated remaining-seconds message);
* the Summarizer model-fallback loop of `_get_ai_response` and the
  state-updating wrapper `analyze_trends`;
* the Dashboard-tab rendering block (JSON dispatch with `.get` defaults).

External effects (HTTP, BeautifulSoup parsing, the Gemini API, `json.loads`)
are modelled as explicit inputs: each network source contributes an optional
list of already-extracted node texts (`none` models a `RequestException`),
each candidate model contributes an optional response text (`none` models a
raised exception), and the JSON parse outcome of a raw Dashboard string is an
optional JSON value (`none` models `json.JSONDecodeError`).  Clock readings
(`time.time()`) are rational numbers passed explicitly.
-/

namespace BakeryApp

/-- `MAX_HEADLINES: int = 25` -/
def MAX_HEADLINES : Nat := 25

/-- `DAILY_AI_LIMIT: int = 20` -/
def DAILY_AI_LIMIT : Nat := 20

/-- `COOLDOWN_SECONDS: int = 30` -/
def COOLDOWN_SECONDS : ℚ := 30

/-! ## Python string primitives -/

/-- Python `str.strip()`: remove leading and trailing whitespace. -/
def pyStrip (s : String) : String :=
  ⟨((s.data.dropWhile Char.isWhitespace).reverse.dropWhile Char.isWhitespace).reverse⟩

/-- Python `str.lower()` (ASCII case folding). -/
def pyLower (s : String) : String :=
  ⟨s.data.map Char.toLower⟩

/-- Contiguous-sublist test on character lists, used for Python `in`. -/
def listInfixOf (needle : List Char) : List Char → Bool
  | [] => needle.isEmpty
  | c :: t => needle.isPrefixOf (c :: t) || listInfixOf needle t

/-- Python `needle in hay` for strings: substring containment. -/
def pyIn (needle hay : String) : Bool :=
  listInfixOf needle.data hay.data

/-! ## Extractor (`fetch_trends`, src/app.py lines 140–175) -/

/-- The boilerplate denylist (`ignore_list` in `fetch_trends`). -/
def ignore_list : List String :=
  ["privacy", "cookie", "subscribe", "terms", "contact", "about us",
   "advertise", "sign in"]

/-- One candidate node text (already stripped) survives the filter iff
`40 < len(text) < 160` and no denylisted substring occurs in
`text.lower()`. -/
def keepCandidate (text : String) : Bool :=
  decide (40 < text.length) && decide (text.length < 160) &&
    !(ignore_list.any (fun x => pyIn x (pyLower text)))

/-- The per-source loop body of `fetch_trends`: strip each node text and keep
the candidates that pass the length window and the denylist. -/
def extractFromSource (items : List String) : List String :=
  (items.map pyStrip).filter keepCandidate

/-- The `sources` list built from the category selector: the bakery source is
consulted for `"Bakery"` and `"Both"`, the coffee source for `"Coffee"` and
`"Both"`.  A `none` source models a `requests.RequestException` (that source
contributes nothing). -/
def sourcesFor (category : String) (bakery coffee : Option (List String)) :
    List (Option (List String)) :=
  (if category = "Bakery" ∨ category = "Both" then [bakery] else []) ++
    (if category = "Coffee" ∨ category = "Both" then [coffee] else [])

/-- `all_headlines` after the source loop of `fetch_trends`. -/
def collectedHeadlines (category : String) (bakery coffee : Option (List String)) :
    List String :=
  (sourcesFor category bakery coffee).foldl
    (fun acc src =>
      match src with
      | none => acc
      | some items => acc ++ extractFromSource items) []

/-- `list(dict.fromkeys(xs))`: first-occurrence deduplication, modelled as the
left fold that appends each text the first time it is seen. -/
def dictFromKeys (l : List String) : List String :=
  l.foldl (fun acc h => if h ∈ acc then acc else acc ++ [h]) []

/-- Recursive characterisation of first-occurrence deduplication: keep the
head, delete its later duplicates, recurse. -/
def firstDedup : List String → List String
  | [] => []
  | h :: t => h :: firstDedup (t.filter (fun x => x ≠ h))
termination_by l => l.length
decreasing_by
  simp only [List.length_cons]
  exact Nat.lt_succ_of_le (List.length_filter_le _ _)

/-- `unique_all` in `fetch_trends`. -/
def dedupedHeadlines (category : String) (bakery coffee : Option (List String)) :
    List String :=
  dictFromKeys (collectedHeadlines category bakery coffee)

/-- The search predicate of `fetch_trends`:
`search_query.lower() in h.lower()`. -/
def matchesQuery (search_query h : String) : Bool :=
  pyIn (pyLower search_query) (pyLower h)

/-- `fetch_trends(category, search_query)` (src/app.py lines 140–175), with
the two network sources passed explicitly.  Returns the headline list and the
exact-match flag. -/
def fetch_trends (category search_query : String)
    (bakery coffee : Option (List String)) : List String × Bool :=
  let unique_all := dedupedHeadlines category bakery coffee
  if search_query ≠ "" then
    let filtered := unique_all.filter (matchesQuery search_query)
    if filtered ≠ [] then (filtered.take MAX_HEADLINES, true)
    else (unique_all.take MAX_HEADLINES, false)
  else (unique_all.take MAX_HEADLINES, true)

/-! ## Quota gate (`check_ai_allowance`, src/app.py lines 124–135) -/

/-- Per-session quota state held in `st.session_state`. -/
structure SessionState where
  daily_ai_count : Nat
  last_ai_time : ℚ
  request_date : Int
  deriving Repr, DecidableEq

/-- The daily-quota denial message of `check_ai_allowance`. -/
def quotaMsg : String := "❌ ท่านใช้งาน AI ครบโควตารายวันแล้ว (20 ครั้ง/วัน)"

/-- The cooldown denial message
`f"⏳ กรุณารอ {remain} วินาทีก่อนวิเคราะห์ครั้งถัดไป"`. -/
def cooldownMsg (remain : Int) : String :=
  "⏳ กรุณารอ " ++ toString remain ++ " วินาทีก่อนวิเคราะห์ครั้งถัดไป"

/-- Python `int(q)` on a number: truncation toward zero. -/
def pyInt (q : ℚ) : Int :=
  if q < 0 then Int.ceil q else Int.floor q

/-- `check_ai_allowance()` (src/app.py lines 124–135): daily-cap check first,
then cooldown check, else allowed with an empty message.  `now` models
`time.time()`. -/
def check_ai_allowance (s : SessionState) (now : ℚ) : Bool × String :=
  if s.daily_ai_count ≥ DAILY_AI_LIMIT then
    (false, quotaMsg)
  else
    let elapsed := now - s.last_ai_time
    if elapsed < COOLDOWN_SECONDS then
      let remain := pyInt (COOLDOWN_SECONDS - elapsed)
      (false, cooldownMsg remain)
    else
      (true, "")

/-- `check_ai_allowance` threaded through the session state statement by
statement: the body reads `st.session_state.daily_ai_count` and
`st.session_state.last_ai_time` but contains no assignment, so every branch
returns the incoming state. -/
def check_ai_allowance_st (s : SessionState) (now : ℚ) :
    (Bool × String) × SessionState :=
  if s.daily_ai_count ≥ DAILY_AI_LIMIT then
    ((false, quotaMsg), s)
  else
    let elapsed := now - s.last_ai_time
    if elapsed < COOLDOWN_SECONDS then
      ((false, cooldownMsg (pyInt (COOLDOWN_SECONDS - elapsed))), s)
    else
      ((true, ""), s)

/-! ## Summarizer (`_get_ai_response`, src/app.py lines 179–240) -/

/-- `l` with every occurrence of the character `c` replaced by the string
`rep` (Python `str.replace` with a one-character pattern). -/
def replaceChar (l : List Char) (c : Char) (rep : List Char) : List Char :=
  l.flatMap (fun d => if d = c then rep else [d])

/-- `response.text.replace("<", "&lt;").replace(">", "&gt;")` in
`_get_ai_response`: the only output escaping the Summarizer performs. -/
def escapeAngles (s : String) : String :=
  ⟨replaceChar (replaceChar s.data '<' "&lt;".data) '>' "&gt;".data⟩

/-- The value `_get_ai_response` returns on the first successful model:
Dashboard mode returns the raw response text, every other mode prefixes the
model attribution and escapes angle brackets. -/
def formatSuccess (mode model_name text : String) : String :=
  if mode = "Dashboard" then text
  else "*(Analysed by: `" ++ model_name ++ "`)*\n\n" ++ escapeAngles text

/-- The all-candidates-failed message of `_get_ai_response`. -/
def aiFailedMsg : String :=
  "❌ AI Processing Failed. ขัดข้องหรือโควต้ารายวันอาจจะเต็ม กรุณาลองใหม่ภายหลัง"

/-- The model-fallback loop of `_get_ai_response`: each candidate is a model
name paired with its attempt outcome (`none` models a raised exception, which
the `except` clause silently skips).  The first success is formatted and
returned; when every candidate fails the failure message is returned. -/
def tryModels (mode : String) : List (String × Option String) → String
  | [] => aiFailedMsg
  | (_, none) :: rest => tryModels mode rest
  | (name, some text) :: _ => formatSuccess mode name text

/-- Number of generation attempts the loop makes on a candidate list: each
failure is one attempt, the first success is the last attempt. -/
def attemptsCount : List (String × Option String) → Nat
  | [] => 0
  | (_, none) :: rest => attemptsCount rest + 1
  | (_, some _) :: _ => 1

/-- The character class removed by `sanitize_input`: angle brackets, braces,
square brackets, backtick, single and double quote (by code point:
60 62 123 125 91 93 96 39 34). -/
def removedBySanitize (c : Char) : Bool :=
  c.toNat ∈ [60, 62, 123, 125, 91, 93, 96, 39, 34]

/-- `sanitize_input(text)` (src/app.py lines 119–122): empty input yields
`""`; otherwise truncate to 100 characters, delete the markup characters,
strip whitespace. -/
def sanitize_input (text : String) : String :=
  if text = "" then ""
  else pyStrip ⟨(text.data.take 100).filter (fun c => !removedBySanitize c)⟩

/-- `analyze_trends` (src/app.py lines 242–254), with the external model
attempt outcomes passed explicitly.  With an empty API key it returns the
key prompt and leaves the session state untouched; otherwise it sets
`last_ai_time := now`, increments `daily_ai_count` once, and returns the
fallback-loop result. -/
def analyze_trends (api_key : String) (news_list : List String)
    (focus_topic mode : String) (models : List (String × Option String))
    (now : ℚ) (s : SessionState) : String × SessionState :=
  if api_key = "" then
    ("⚠️ Please provide a Gemini API Key in the sidebar.", s)
  else
    let _context := String.intercalate "\n- " news_list
    let _safe_focus := sanitize_input focus_topic
    let s' : SessionState :=
      { s with last_ai_time := now, daily_ai_count := s.daily_ai_count + 1 }
    (tryModels mode models, s')

/-! ## Dashboard rendering (tab 5 block, src/app.py lines 377–402) -/

/-- JSON values, as produced by `json.loads`. -/
inductive JValue where
  | jnull
  | jbool (b : Bool)
  | jnum (q : ℚ)
  | jstr (s : String)
  | jarr (elems : List JValue)
  | jobj (fields : List (String × JValue))
  deriving Repr

/-- Python `dict.get(k, d)` on a JSON object's field list. -/
def jget (fields : List (String × JValue)) (k : String) (d : JValue) : JValue :=
  match fields.find? (fun p => p.1 = k) with
  | some p => p.2
  | none => d

/-- Python truthiness of a JSON value (`None`, `False`, `0`, `""`, `[]` and
the empty object are falsy). -/
def jTruthy (v : JValue) : Bool :=
  match v with
  | .jnull => false
  | .jbool b => b
  | .jnum q => decide (q ≠ 0)
  | .jstr s => decide (s ≠ "")
  | .jarr elems => !elems.isEmpty
  | .jobj fields => !fields.isEmpty

/-- `min(max(score / 10, 0.0), 1.0)`: the clamp applied to each
trending-keyword score before `st.progress`. -/
def keywordProgress (score : ℚ) : ℚ :=
  min (max (score / 10) 0) 1

/-- The keyword rows rendered by the dashboard loop over
`dash_data.get('trending_keywords', ...)`.  Only numeric scores are
modelled; a non-numeric score raises an uncaught `TypeError` in the
source. -/
def keywordRows (v : JValue) : List (String × ℚ) :=
  match v with
  | .jobj fields =>
      fields.filterMap (fun p =>
        match p.2 with
        | .jnum q => some (p.1, keywordProgress q)
        | _ => none)
  | _ => []

/-- What the Dashboard tab renders from a successfully parsed JSON object. -/
structure DashboardView where
  sentiment_metric : JValue
  vibrancy_metric : JValue
  categories_chart : Option JValue
  thai_summary : JValue
  keyword_bars : List (String × ℚ)
  deriving Repr

/-- The distinct message of the `json.JSONDecodeError` handler. -/
def structureErrMsg : String :=
  "AI could not structure visual data securely. Please try again."

/-- Outcome of the Dashboard tab's rendering block. -/
inductive DashRender where
  /-- `st.error(raw_json)`: the Summarizer result itself carried the ❌
  failure marker. -/
  | aiError (msg : String)
  /-- `st.error(...)` in the `json.JSONDecodeError` handler. -/
  | structureError (msg : String)
  /-- `json.loads` returned a non-object: the source raises an uncaught
  `AttributeError` on `.get`. -/
  | nonObject
  /-- The chart/metric view built from the parsed object. -/
  | view (v : DashboardView)
  deriving Repr

/-- The Dashboard rendering block of tab 5 (src/app.py lines 377–402).
`raw` is the string returned by `analyze_trends`; `parsed` is the outcome of
`json.loads(raw)` (`none` models `json.JSONDecodeError`; a parsed non-object
hits an uncaught `AttributeError` on `.get`). -/
def renderDashboard (raw : String) (parsed : Option JValue) : DashRender :=
  if pyIn "❌" raw then .aiError raw
  else
    match parsed with
    | none => .structureError structureErrMsg
    | some (.jobj fields) =>
        .view
          { sentiment_metric := jget fields "sentiment_score" (.jnum 50)
            vibrancy_metric := jget fields "market_vibrancy" (.jnum 50)
            categories_chart :=
              (let cats := jget fields "top_categories" .jnull
               if jTruthy cats then some cats else none)
            thai_summary := jget fields "thai_summary" (.jstr "ไม่มีข้อสรุป")
            keyword_bars :=
              keywordRows (jget fields "trending_keywords" (.jobj [])) }
    | some _ => .nonObject

/-! ## Deduplication lemmas -/

theorem firstDedup_nil : firstDedup [] = [] := by
  rw [firstDedup]

theorem firstDedup_cons (h : String) (t : List String) :
    firstDedup (h :: t) = h :: firstDedup (t.filter (fun x => x ≠ h)) := by
  rw [firstDedup]

theorem dictFromKeys_go (l : List String) (acc : List String) :
    l.foldl (fun acc h => if h ∈ acc then acc else acc ++ [h]) acc =
      acc ++ firstDedup (l.filter (fun x => x ∉ acc)) := by
  induction l generalizing acc with
  | nil => simp [firstDedup]
  | cons h t ih =>
    by_cases hmem : h ∈ acc
    · simp only [List.foldl_cons, if_pos hmem, List.filter_cons]
      rw [if_neg (by simp [hmem])]
      exact ih acc
    · simp only [List.foldl_cons, if_neg hmem, List.filter_cons]
      rw [if_pos (by simp [hmem])]
      rw [ih (acc ++ [h])]
      rw [firstDedup_cons]
      have hfe : t.filter (fun x => x ∉ acc ++ [h]) =
          (t.filter (fun x => x ∉ acc)).filter (fun x => x ≠ h) := by
        rw [List.filter_filter]
        apply List.filter_congr
        intro x _
        simp [List.mem_append, not_or, and_comm]
      rw [hfe, List.append_assoc]
      simp

theorem dictFromKeys_eq_firstDedup (l : List String) :
    dictFromKeys l = firstDedup l := by
  have := dictFromKeys_go l []
  simpa [dictFromKeys] using this

theorem firstDedup_sublist (l : List String) : List.Sublist (firstDedup l) l := by
  induction l using firstDedup.induct with
  | case1 => simp [firstDedup]
  | case2 h t ih =>
    rw [firstDedup_cons]
    exact (ih.trans (List.filter_sublist t)).cons₂ h

theorem mem_firstDedup (a : String) (l : List String) :
    a ∈ firstDedup l ↔ a ∈ l := by
  induction l using firstDedup.induct with
  | case1 => simp [firstDedup]
  | case2 h t ih =>
    rw [firstDedup_cons]
    by_cases hah : a = h
    · simp [hah]
    · simp only [List.mem_cons, ih, List.mem_filter, hah, false_or]
      simp [hah]

theorem nodup_firstDedup (l : List String) : (firstDedup l).Nodup := by
  induction l using firstDedup.induct with
  | case1 => simp [firstDedup]
  | case2 h t ih =>
    rw [firstDedup_cons]
    refine List.nodup_cons.mpr ⟨?_, ih⟩
    intro hmem
    have := (mem_firstDedup h _).mp hmem
    simp at this

theorem firstDedup_append_prefix (l r : List String) :
    List.IsPrefix (firstDedup l) (firstDedup (l ++ r)) := by
  induction l using firstDedup.induct generalizing r with
  | case1 => simp [firstDedup]
  | case2 h t ih =>
    rw [firstDedup_cons, List.cons_append, firstDedup_cons, List.filter_append]
    obtain ⟨tail, htail⟩ := ih (r.filter (fun x => x ≠ h))
    exact ⟨tail, by rw [List.cons_append, htail]⟩

/-! ## Extractor lemmas -/

theorem keep_of_mem_extractFromSource {h : String} {items : List String}
    (hmem : h ∈ extractFromSource items) : keepCandidate h = true :=
  List.of_mem_filter hmem

theorem keep_of_mem_collectedHeadlines {h category : String}
    {bakery coffee : Option (List String)}
    (hmem : h ∈ collectedHeadlines category bakery coffee) :
    keepCandidate h = true := by
  have main : ∀ (srcs : List (Option (List String))) (acc : List String),
      (∀ x ∈ acc, keepCandidate x = true) →
      ∀ x ∈ srcs.foldl
          (fun acc src =>
            match src with
            | none => acc
            | some items => acc ++ extractFromSource items) acc,
        keepCandidate x = true := by
    intro srcs
    induction srcs with
    | nil =>
      intro acc hacc x hx
      exact hacc x hx
    | cons s t ih =>
      intro acc hacc x hx
      simp only [List.foldl_cons] at hx
      cases s with
      | none => exact ih acc hacc x hx
      | some items =>
        refine ih _ ?_ x hx
        intro y hy
        rcases List.mem_append.mp hy with hy | hy
        · exact hacc y hy
        · exact keep_of_mem_extractFromSource hy
  exact main _ [] (by simp) h hmem

theorem keep_of_mem_dedupedHeadlines {h category : String}
    {bakery coffee : Option (List String)}
    (hmem : h ∈ dedupedHeadlines category bakery coffee) :
    keepCandidate h = true := by
  rw [dedupedHeadlines, dictFromKeys_eq_firstDedup] at hmem
  exact keep_of_mem_collectedHeadlines ((mem_firstDedup _ _).mp hmem)

theorem nodup_dedupedHeadlines (category : String)
    (bakery coffee : Option (List String)) :
    (dedupedHeadlines category bakery coffee).Nodup := by
  rw [dedupedHeadlines, dictFromKeys_eq_firstDedup]
  exact nodup_firstDedup _

theorem fetch_trends_fst_shape (category search_query : String)
    (bakery coffee : Option (List String)) :
    (fetch_trends category search_query bakery coffee).1 =
      ((dedupedHeadlines category bakery coffee).filter
        (matchesQuery search_query)).take MAX_HEADLINES ∨
    (fetch_trends category search_query bakery coffee).1 =
      (dedupedHeadlines category bakery coffee).take MAX_HEADLINES := by
  by_cases hq : search_query ≠ ""
  · by_cases hf :
        (dedupedHeadlines category bakery coffee).filter
          (matchesQuery search_query) ≠ []
    · left
      simp [fetch_trends, hq, hf]
    · right
      simp only [ne_eq, not_not] at hf
      simp [fetch_trends, hq, hf]
  · right
    simp [fetch_trends, hq]

theorem mem_fetch_trends {h category search_query : String}
    {bakery coffee : Option (List String)}
    (hmem : h ∈ (fetch_trends category search_query bakery coffee).1) :
    h ∈ dedupedHeadlines category bakery coffee := by
  rcases fetch_trends_fst_shape category search_query bakery coffee with hs | hs <;>
    rw [hs] at hmem
  · exact List.mem_of_mem_filter ((List.take_sublist _ _).subset hmem)
  · exact (List.take_sublist _ _).subset hmem

theorem keepCandidate_length {h : String} (hk : keepCandidate h = true) :
    40 < h.length ∧ h.length < 160 := by
  simp only [keepCandidate, Bool.and_eq_true, decide_eq_true_eq] at hk
  exact ⟨hk.1.1, hk.1.2⟩

theorem keepCandidate_false_of_outside {t : String}
    (hlen : t.length < 30 ∨ 160 < t.length) : keepCandidate t = false := by
  rcases hlen with hl | hl
  · have hn : ¬(40 < t.length) := by omega
    simp [keepCandidate, hn]
  · have hn : ¬(t.length < 160) := by omega
    simp [keepCandidate, hn]

/-! ## Claim theorems: Extractor -/

/-- C1: for every `fetch_trends` call with a non-empty search query, if the
query case-insensitively matches at least one deduplicated headline the
result is exactly the matching headlines capped at 25 with the exact-match
flag `true`; if it matches none, the result is the full deduplicated set
capped at 25 with the flag `false`. -/
theorem C1_search_fallback (category search_query : String)
    (bakery coffee : Option (List String)) (hq : search_query ≠ "") :
    ((dedupedHeadlines category bakery coffee).filter
        (matchesQuery search_query) ≠ [] →
      fetch_trends category search_query bakery coffee =
        (((dedupedHeadlines category bakery coffee).filter
            (matchesQuery search_query)).take MAX_HEADLINES, true)) ∧
    ((dedupedHeadlines category bakery coffee).filter
        (matchesQuery search_query) = [] →
      fetch_trends category search_query bakery coffee =
        ((dedupedHeadlines category bakery coffee).take MAX_HEADLINES, false)) := by
  constructor <;> intro hf <;> simp [fetch_trends, hq, hf]

/-- Witness for C1: a concrete two-source fetch where the query `"latte"`
matches exactly one deduplicated headline. -/
theorem C1_search_fallback_witness :
    ("latte" : String) ≠ "" ∧
    fetch_trends "Both" "latte"
        (some ["Sourdough croissants surge across European bakery chains this yr"])
        (some ["Latte art championships boost specialty coffee sales worldwide!"]) =
      (((dedupedHeadlines "Both"
            (some ["Sourdough croissants surge across European bakery chains this yr"])
            (some ["Latte art championships boost specialty coffee sales worldwide!"])).filter
          (matchesQuery "latte")).take MAX_HEADLINES, true) :=
  ⟨by decide,
    (C1_search_fallback "Both" "latte"
        (some ["Sourdough croissants surge across European bakery chains this yr"])
        (some ["Latte art championships boost specialty coffee sales worldwide!"])
        (by decide)).1 (by decide)⟩

/-- C2: every headline returned by `fetch_trends` has (trimmed) length
between 30 and 160 inclusive, and no candidate whose trimmed text is shorter
than 30 or longer than 160 passes the extractor's filter.  (The source filter
`40 < len < 160` is strictly inside the claimed window.) -/
theorem C2_length_window (category search_query : String)
    (bakery coffee : Option (List String)) (h text : String)
    (hmem : h ∈ (fetch_trends category search_query bakery coffee).1)
    (hlen : (pyStrip text).length < 30 ∨ 160 < (pyStrip text).length) :
    (30 ≤ h.length ∧ h.length ≤ 160) ∧ keepCandidate (pyStrip text) = false := by
  constructor
  · have hk := keepCandidate_length (keep_of_mem_dedupedHeadlines (mem_fetch_trends hmem))
    omega
  · exact keepCandidate_false_of_outside hlen

/-- Witness for C2: a concrete headline of the fetched output, and a
too-short candidate text rejected by the filter. -/
theorem C2_length_window_witness :
    "Sourdough croissants surge across European bakery chains this yr" ∈
        (fetch_trends "Bakery" ""
          (some ["Sourdough croissants surge across European bakery chains this yr"])
          none).1 ∧
    (pyStrip "  tiny headline  ").length < 30 ∧
    (30 ≤ ("Sourdough croissants surge across European bakery chains this yr" : String).length ∧
      ("Sourdough croissants surge across European bakery chains this yr" : String).length ≤ 160) ∧
    keepCandidate (pyStrip "  tiny headline  ") = false := by
  refine ⟨by decide, by decide, ?_⟩
  exact C2_length_window "Bakery" "" (some
    ["Sourdough croissants surge across European bakery chains this yr"]) none
    "Sourdough croissants surge across European bakery chains this yr"
    "  tiny headline  " (by decide) (Or.inl (by decide))

/-- C3: the deduplication step of `fetch_trends` (`list(dict.fromkeys(...))`)
keeps every element of its input exactly once, as an order-preserving
subsequence, and processing any input prefix yields a prefix of the output
(first-seen order). -/
theorem C3_dedup_first_seen (l r : List String) (x : String) (hx : x ∈ l) :
    x ∈ dictFromKeys l ∧ (dictFromKeys l).count x = 1 ∧
    List.Sublist (dictFromKeys l) l ∧
    List.IsPrefix (dictFromKeys l) (dictFromKeys (l ++ r)) := by
  rw [dictFromKeys_eq_firstDedup, dictFromKeys_eq_firstDedup]
  refine ⟨(mem_firstDedup x l).mpr hx, ?_, firstDedup_sublist l,
    firstDedup_append_prefix l r⟩
  exact List.count_eq_one_of_mem (nodup_firstDedup l) ((mem_firstDedup x l).mpr hx)

/-- Witness for C3: deduplicating `["a", "b", "a"]`. -/
theorem C3_dedup_first_seen_witness :
    "a" ∈ dictFromKeys ["a", "b", "a"] ∧
    (dictFromKeys ["a", "b", "a"]).count "a" = 1 ∧
    List.Sublist (dictFromKeys ["a", "b", "a"]) ["a", "b", "a"] ∧
    List.IsPrefix (dictFromKeys ["a", "b", "a"])
      (dictFromKeys (["a", "b", "a"] ++ ["c"])) :=
  C3_dedup_first_seen ["a", "b", "a"] ["c"] "a" (by decide)

/-- C4: on every return path and for every category, query and source
outcome, the headline list returned by `fetch_trends` has at most 25 elements
and contains no two textually identical elements. -/
theorem C4_cap_and_nodup (category search_query : String)
    (bakery coffee : Option (List String)) :
    (fetch_trends category search_query bakery coffee).1.length ≤ MAX_HEADLINES ∧
    (fetch_trends category search_query bakery coffee).1.Nodup := by
  have hnd := nodup_dedupedHeadlines category bakery coffee
  rcases fetch_trends_fst_shape category search_query bakery coffee with hs | hs <;>
    rw [hs]
  · exact ⟨List.length_take_le _ _,
      (hnd.filter _).sublist (List.take_sublist _ _)⟩
  · exact ⟨List.length_take_le _ _, hnd.sublist (List.take_sublist _ _)⟩

/-! ## Summarizer lemmas -/

theorem tryModels_all_fail (mode : String) (l : List (String × Option String))
    (hl : ∀ p ∈ l, p.2 = none) : tryModels mode l = aiFailedMsg := by
  induction l with
  | nil => rfl
  | cons p t ih =>
    obtain ⟨n, o⟩ := p
    have ho := hl (n, o) (by simp)
    simp only at ho
    subst ho
    exact ih fun p hp => hl p (List.mem_cons_of_mem _ hp)

theorem tryModels_first_success (mode name text : String)
    (fails rest : List (String × Option String))
    (hf : ∀ p ∈ fails, p.2 = none) :
    tryModels mode (fails ++ (name, some text) :: rest) =
      formatSuccess mode name text ∧
    attemptsCount (fails ++ (name, some text) :: rest) = fails.length + 1 := by
  induction fails with
  | nil => exact ⟨rfl, rfl⟩
  | cons p t ih =>
    obtain ⟨n, o⟩ := p
    have ho := hf (n, o) (by simp)
    simp only at ho
    subst ho
    have h := ih fun p hp => hf p (List.mem_cons_of_mem _ hp)
    refine ⟨h.1, ?_⟩
    show attemptsCount (t ++ (name, some text) :: rest) + 1 = t.length + 1 + 1
    rw [h.2]

/-! ## Claim theorems: Summarizer and quota gate -/

/-- C5: the fallback loop tries candidates in order; each failure silently
advances to the next candidate; when the candidates start with `N` failures
followed by a success, the result is that success's formatted output
(independent of the remaining candidates) and exactly `N + 1` attempts are
made; when every candidate fails, the "AI Processing Failed" message is
returned. -/
theorem C5_model_fallback (mode name text : String)
    (fails rest l : List (String × Option String))
    (hf : ∀ p ∈ fails, p.2 = none) (hl : ∀ p ∈ l, p.2 = none) :
    tryModels mode (fails ++ (name, some text) :: rest) =
      formatSuccess mode name text ∧
    attemptsCount (fails ++ (name, some text) :: rest) = fails.length + 1 ∧
    tryModels mode l = aiFailedMsg ∧
    pyIn "AI Processing Failed" aiFailedMsg = true := by
  obtain ⟨h1, h2⟩ := tryModels_first_success mode name text fails rest hf
  exact ⟨h1, h2, tryModels_all_fail mode l hl, by decide⟩

/-- Witness for C5: one failing candidate, then a success whose output is
returned after exactly two attempts; a separate all-failing list yields the
failure message. -/
theorem C5_model_fallback_witness :
    tryModels "Brief" ([("gemini-2.5-flash", (none : Option String))] ++
        ("gemini-1.5-flash", some "ok") :: [("gemini-1.5-pro", some "other")]) =
      formatSuccess "Brief" "gemini-1.5-flash" "ok" ∧
    attemptsCount ([("gemini-2.5-flash", (none : Option String))] ++
        ("gemini-1.5-flash", some "ok") :: [("gemini-1.5-pro", some "other")]) = 2 ∧
    tryModels "Brief" [("gemini-1.5-pro", (none : Option String))] = aiFailedMsg ∧
    pyIn "AI Processing Failed" aiFailedMsg = true :=
  C5_model_fallback "Brief" "gemini-1.5-flash" "ok"
    [("gemini-2.5-flash", none)] [("gemini-1.5-pro", some "other")]
    [("gemini-1.5-pro", none)] (by decide) (by decide)

/-- C6: at or above the daily cap the allowance check returns the
quota-exhausted denial regardless of the clock; below the cap and within the
cooldown it returns the cooldown denial; below the cap and past the cooldown
it returns `(true, "")`. -/
theorem C6_allowance_precedence (s : SessionState) (now : ℚ) :
    (DAILY_AI_LIMIT ≤ s.daily_ai_count →
      check_ai_allowance s now = (false, quotaMsg)) ∧
    (s.daily_ai_count < DAILY_AI_LIMIT →
      now - s.last_ai_time < COOLDOWN_SECONDS →
      check_ai_allowance s now =
        (false, cooldownMsg (pyInt (COOLDOWN_SECONDS - (now - s.last_ai_time))))) ∧
    (s.daily_ai_count < DAILY_AI_LIMIT →
      COOLDOWN_SECONDS ≤ now - s.last_ai_time →
      check_ai_allowance s now = (true, "")) := by
  refine ⟨fun h1 => ?_, fun h1 h2 => ?_, fun h1 h2 => ?_⟩
  · simp [check_ai_allowance, ge_iff_le, h1]
  · have hn : ¬(s.daily_ai_count ≥ DAILY_AI_LIMIT) := by omega
    simp [check_ai_allowance, hn, h2]
  · have hn : ¬(s.daily_ai_count ≥ DAILY_AI_LIMIT) := by omega
    have h2' : ¬(now - s.last_ai_time < COOLDOWN_SECONDS) := not_lt.mpr h2
    simp [check_ai_allowance, hn, h2']

/-- Witness for C6: the three branches at concrete states. -/
theorem C6_allowance_precedence_witness :
    check_ai_allowance ⟨20, 0, 0⟩ 100 = (false, quotaMsg) ∧
    check_ai_allowance ⟨0, 0, 0⟩ (1/2) =
      (false, cooldownMsg (pyInt (COOLDOWN_SECONDS - ((1/2 : ℚ) - 0)))) ∧
    check_ai_allowance ⟨0, 0, 0⟩ 50 = (true, "") :=
  ⟨(C6_allowance_precedence ⟨20, 0, 0⟩ 100).1 (by norm_num [DAILY_AI_LIMIT]),
    (C6_allowance_precedence ⟨0, 0, 0⟩ (1/2)).2.1 (by norm_num [DAILY_AI_LIMIT])
      (by norm_num [COOLDOWN_SECONDS]),
    (C6_allowance_precedence ⟨0, 0, 0⟩ 50).2.2 (by norm_num [DAILY_AI_LIMIT])
      (by norm_num [COOLDOWN_SECONDS])⟩

/-- C7 counterexample: half a second after a permitted call the code reports
29 remaining seconds (`int(30 - 0.5)` truncates), while the ceiling of the
remaining wait is 30. -/
theorem C7_ceiling_counterexample :
    check_ai_allowance ⟨0, 0, 0⟩ (1/2) = (false, cooldownMsg 29) ∧
    Int.ceil (COOLDOWN_SECONDS - ((1/2 : ℚ) - 0)) = 30 ∧ (29 : Int) ≠ 30 := by
  refine ⟨?_, ?_, by decide⟩
  · norm_num [check_ai_allowance, COOLDOWN_SECONDS, DAILY_AI_LIMIT, pyInt]
  · rw [show COOLDOWN_SECONDS - ((1/2 : ℚ) - 0) = 59/2 by
      norm_num [COOLDOWN_SECONDS]]
    rw [Int.ceil_eq_iff]
    constructor <;> norm_num

/-- C7 amended: on a cooldown denial, the reported remaining-seconds number
is the floor (Python `int()` truncation) of `cooldown − elapsed`, not its
ceiling. -/
theorem C7_remaining_is_floor (s : SessionState) (now : ℚ)
    (hc : s.daily_ai_count < DAILY_AI_LIMIT)
    (he : now - s.last_ai_time < COOLDOWN_SECONDS) :
    check_ai_allowance s now =
      (false, cooldownMsg (Int.floor (COOLDOWN_SECONDS - (now - s.last_ai_time)))) := by
  have hn : ¬(s.daily_ai_count ≥ DAILY_AI_LIMIT) := by omega
  have hpos : ¬(COOLDOWN_SECONDS - (now - s.last_ai_time) < 0) := by
    intro hcon
    exact absurd he (by linarith)
  simp [check_ai_allowance, hn, he, pyInt, hpos]

/-- Witness for C7's amended statement. -/
theorem C7_remaining_is_floor_witness :
    check_ai_allowance ⟨0, 0, 0⟩ (1/2) =
      (false, cooldownMsg (Int.floor (COOLDOWN_SECONDS - ((1/2 : ℚ) - 0)))) :=
  C7_remaining_is_floor ⟨0, 0, 0⟩ (1/2) (by norm_num [DAILY_AI_LIMIT])
    (by norm_num [COOLDOWN_SECONDS])

/-- C8: the allowance check returns the session state unchanged on every
branch (and computes the same verdict as the pure reading), while
`analyze_trends` with a non-empty credential increments the daily counter
exactly once and sets the last-call time, and with an empty credential
leaves the state untouched. -/
theorem C8_state_frame (s : SessionState) (now : ℚ) (api_key : String)
    (news : List String) (focus mode : String)
    (models : List (String × Option String)) (hk : api_key ≠ "") :
    (check_ai_allowance_st s now).2 = s ∧
    (check_ai_allowance_st s now).1 = check_ai_allowance s now ∧
    (analyze_trends api_key news focus mode models now s).2 =
      { s with daily_ai_count := s.daily_ai_count + 1, last_ai_time := now } ∧
    (analyze_trends "" news focus mode models now s).2 = s := by
  refine ⟨?_, ?_, ?_, rfl⟩
  · by_cases h1 : s.daily_ai_count ≥ DAILY_AI_LIMIT
    · simp [check_ai_allowance_st, h1]
    · by_cases h2 : now - s.last_ai_time < COOLDOWN_SECONDS
      · simp [check_ai_allowance_st, h1, h2]
      · simp [check_ai_allowance_st, h1, h2]
  · by_cases h1 : s.daily_ai_count ≥ DAILY_AI_LIMIT
    · simp [check_ai_allowance_st, check_ai_allowance, h1]
    · by_cases h2 : now - s.last_ai_time < COOLDOWN_SECONDS
      · simp [check_ai_allowance_st, check_ai_allowance, h1, h2]
      · simp [check_ai_allowance_st, check_ai_allowance, h1, h2]
  · simp [analyze_trends, hk]

/-- Witness for C8 at a concrete state and call. -/
theorem C8_state_frame_witness :
    (check_ai_allowance_st ⟨3, 7, 0⟩ 100).2 = (⟨3, 7, 0⟩ : SessionState) ∧
    (check_ai_allowance_st ⟨3, 7, 0⟩ 100).1 = check_ai_allowance ⟨3, 7, 0⟩ 100 ∧
    (analyze_trends "key" ["headline"] "focus" "General"
        [("gemini-1.5-flash", some "ok")] 100 ⟨3, 7, 0⟩).2 =
      (⟨3 + 1, 100, 0⟩ : SessionState) ∧
    (analyze_trends "" ["headline"] "focus" "General"
        [("gemini-1.5-flash", some "ok")] 100 ⟨3, 7, 0⟩).2 =
      (⟨3, 7, 0⟩ : SessionState) :=
  C8_state_frame ⟨3, 7, 0⟩ 100 "key" ["headline"] "focus" "General"
    [("gemini-1.5-flash", some "ok")] (by decide)

/-! ## Escaping lemmas -/

theorem string_append_data (a b : String) : (a ++ b).data = a.data ++ b.data :=
  rfl

theorem not_mem_replaceChar {c tgt : Char} {l rep : List Char}
    (hl : c ∉ l) (hrep : c ∉ rep) : c ∉ replaceChar l tgt rep := by
  intro hmem
  rw [replaceChar, List.mem_flatMap] at hmem
  obtain ⟨d, hd, hc⟩ := hmem
  by_cases h : d = tgt
  · rw [if_pos h] at hc
    exact hrep hc
  · rw [if_neg h] at hc
    simp only [List.mem_singleton] at hc
    subst hc
    exact hl hd

theorem not_mem_replaceChar_self {tgt : Char} {l rep : List Char}
    (hrep : tgt ∉ rep) : tgt ∉ replaceChar l tgt rep := by
  intro hmem
  rw [replaceChar, List.mem_flatMap] at hmem
  obtain ⟨d, hd, hc⟩ := hmem
  by_cases h : d = tgt
  · rw [if_pos h] at hc
    exact hrep hc
  · rw [if_neg h] at hc
    simp only [List.mem_singleton] at hc
    exact h hc.symm

theorem mem_replaceChar_iff {c tgt : Char} {l rep : List Char}
    (hne : c ≠ tgt) (hrep : c ∉ rep) : c ∈ replaceChar l tgt rep ↔ c ∈ l := by
  rw [replaceChar, List.mem_flatMap]
  constructor
  · rintro ⟨d, hd, hc⟩
    by_cases h : d = tgt
    · rw [if_pos h] at hc
      exact absurd hc hrep
    · rw [if_neg h] at hc
      simp only [List.mem_singleton] at hc
      subst hc
      exact hd
  · intro h
    refine ⟨c, h, ?_⟩
    rw [if_neg hne]
    simp

theorem escapeAngles_no_lt (s : String) :
    Char.ofNat 60 ∉ (escapeAngles s).data := by
  show Char.ofNat 60 ∉ replaceChar (replaceChar s.data _ _) _ _
  apply not_mem_replaceChar
  · apply not_mem_replaceChar_self
    decide
  · decide

theorem escapeAngles_no_gt (s : String) :
    Char.ofNat 62 ∉ (escapeAngles s).data := by
  show Char.ofNat 62 ∉ replaceChar (replaceChar s.data _ _) _ _
  apply not_mem_replaceChar_self
  decide

theorem mem_escapeAngles_iff {c : Char} (s : String)
    (h1 : c ≠ Char.ofNat 60) (h2 : c ≠ Char.ofNat 62)
    (h3 : c ∉ "&lt;".data) (h4 : c ∉ "&gt;".data) :
    c ∈ (escapeAngles s).data ↔ c ∈ s.data := by
  show c ∈ replaceChar (replaceChar s.data _ _) _ _ ↔ _
  rw [mem_replaceChar_iff h2 h4, mem_replaceChar_iff h1 h3]

/-! ## Claim theorems: escaping and Dashboard rendering -/

/-- C9 counterexample: a free-text model output consisting of a double
quote, a single quote and both braces passes through the Summarizer's
escaping completely unchanged — all four HTML-significant characters reach
the presentation layer unescaped. -/
theorem C9_unescaped_counterexample :
    Char.ofNat 34 ∈ (formatSuccess "General" "gemini-1.5-flash"
        ⟨[Char.ofNat 34, Char.ofNat 39, Char.ofNat 123, Char.ofNat 125]⟩).data ∧
    Char.ofNat 39 ∈ (formatSuccess "General" "gemini-1.5-flash"
        ⟨[Char.ofNat 34, Char.ofNat 39, Char.ofNat 123, Char.ofNat 125]⟩).data ∧
    Char.ofNat 123 ∈ (formatSuccess "General" "gemini-1.5-flash"
        ⟨[Char.ofNat 34, Char.ofNat 39, Char.ofNat 123, Char.ofNat 125]⟩).data ∧
    Char.ofNat 125 ∈ (formatSuccess "General" "gemini-1.5-flash"
        ⟨[Char.ofNat 34, Char.ofNat 39, Char.ofNat 123, Char.ofNat 125]⟩).data := by
  decide

/-- C9 amended: a successful non-Dashboard Summarizer result is escaped for
`<` and `>` only (neither reaches the presentation layer, provided the model
name carries none), while double quotes, single quotes and braces from the
model output pass through `escapeAngles` exactly as often as they occur. -/
theorem C9_escapes_angles_only (mode name text : String) (c : Char)
    (hm : mode ≠ "Dashboard")
    (hn1 : Char.ofNat 60 ∉ name.data) (hn2 : Char.ofNat 62 ∉ name.data)
    (hc : c = Char.ofNat 34 ∨ c = Char.ofNat 39 ∨
      c = Char.ofNat 123 ∨ c = Char.ofNat 125) :
    Char.ofNat 60 ∉ (formatSuccess mode name text).data ∧
    Char.ofNat 62 ∉ (formatSuccess mode name text).data ∧
    (c ∈ (escapeAngles text).data ↔ c ∈ text.data) := by
  have hfmt : formatSuccess mode name text =
      "*(Analysed by: `" ++ name ++ "`)*\n\n" ++ escapeAngles text := by
    simp [formatSuccess, hm]
  refine ⟨?_, ?_, ?_⟩
  · rw [hfmt]
    simp only [string_append_data, List.mem_append]
    rintro (((h | h) | h) | h)
    · exact absurd h (by decide)
    · exact hn1 h
    · exact absurd h (by decide)
    · exact escapeAngles_no_lt text h
  · rw [hfmt]
    simp only [string_append_data, List.mem_append]
    rintro (((h | h) | h) | h)
    · exact absurd h (by decide)
    · exact hn2 h
    · exact absurd h (by decide)
    · exact escapeAngles_no_gt text h
  · rcases hc with rfl | rfl | rfl | rfl <;>
      exact mem_escapeAngles_iff text (by decide) (by decide) (by decide)
        (by decide)

/-- Witness for C9's amended statement at a concrete quote-bearing output. -/
theorem C9_escapes_angles_only_witness :
    Char.ofNat 60 ∉ (formatSuccess "General" "gemini-1.5-flash"
        ⟨[Char.ofNat 34]⟩).data ∧
    Char.ofNat 62 ∉ (formatSuccess "General" "gemini-1.5-flash"
        ⟨[Char.ofNat 34]⟩).data ∧
    (Char.ofNat 34 ∈ (escapeAngles ⟨[Char.ofNat 34]⟩).data ↔
      Char.ofNat 34 ∈ (⟨[Char.ofNat 34]⟩ : String).data) :=
  C9_escapes_angles_only "General" "gemini-1.5-flash" ⟨[Char.ofNat 34]⟩
    (Char.ofNat 34) (by decide) (by decide) (by decide) (Or.inl rfl)

/-- C10 counterexample: a parsed Dashboard payload with `sentiment_score`
150 (outside `[0, 100]`) and a trending-keyword score of 99 (outside
`[1, 10]`) is rendered as a normal view — nothing validates the
DashboardReport ranges; the keyword score is merely clamped for the
progress bar. -/
theorem C10_no_validation_counterexample :
    renderDashboard "x" (some (JValue.jobj
        [("sentiment_score", JValue.jnum 150),
         ("trending_keywords", JValue.jobj [("k", JValue.jnum 99)])])) =
      DashRender.view
        { sentiment_metric := JValue.jnum 150
          vibrancy_metric := JValue.jnum 50
          categories_chart := none
          thai_summary := JValue.jstr "ไม่มีข้อสรุป"
          keyword_bars := [("k", (1 : ℚ))] } ∧
    ¬((150 : ℚ) ≤ 100) ∧ ¬((99 : ℚ) ≤ 10) := by
  refine ⟨?_, by norm_num, by norm_num⟩
  have h99 : keywordProgress 99 = 1 := by
    rw [keywordProgress, max_eq_left (by norm_num), min_eq_right (by norm_num)]
  have hstep : renderDashboard "x" (some (JValue.jobj
      [("sentiment_score", JValue.jnum 150),
       ("trending_keywords", JValue.jobj [("k", JValue.jnum 99)])])) =
      DashRender.view
        { sentiment_metric := JValue.jnum 150
          vibrancy_metric := JValue.jnum 50
          categories_chart := none
          thai_summary := JValue.jstr "ไม่มีข้อสรุป"
          keyword_bars := [("k", keywordProgress 99)] } := rfl
  rw [hstep, h99]

/-- C10 amended: a Dashboard result that fails JSON parsing surfaces the
distinct "could not structure" error (different from the AI-failure path);
a parsed object is rendered without any shape or range validation — every
numeric `sentiment_score` (in range or not) is shown as-is and missing
fields are silently defaulted. -/
theorem C10_parse_error_and_defaults (raw : String) (q : ℚ)
    (hraw : pyIn "❌" raw = false) :
    renderDashboard raw none = DashRender.structureError structureErrMsg ∧
    structureErrMsg ≠ aiFailedMsg ∧
    renderDashboard raw (some (JValue.jobj [("sentiment_score", JValue.jnum q)])) =
      DashRender.view
        { sentiment_metric := JValue.jnum q
          vibrancy_metric := JValue.jnum 50
          categories_chart := none
          thai_summary := JValue.jstr "ไม่มีข้อสรุป"
          keyword_bars := [] } := by
  refine ⟨?_, by decide, ?_⟩
  · unfold renderDashboard
    rw [hraw]
    rfl
  · unfold renderDashboard
    rw [hraw]
    rfl

/-- Witness for C10's amended statement at a concrete out-of-range score. -/
theorem C10_parse_error_and_defaults_witness :
    renderDashboard "x" none = DashRender.structureError structureErrMsg ∧
    structureErrMsg ≠ aiFailedMsg ∧
    renderDashboard "x" (some (JValue.jobj
        [("sentiment_score", JValue.jnum 150)])) =
      DashRender.view
        { sentiment_metric := JValue.jnum 150
          vibrancy_metric := JValue.jnum 50
          categories_chart := none
          thai_summary := JValue.jstr "ไม่มีข้อสรุป"
          keyword_bars := [] } :=
  C10_parse_error_and_defaults "x" 150 (by decide)

end BakeryApp
